import Mathlib

/-!
Shallow embedding of the Remote-ID decoding core of the wifi-capture
repository (src/main.rs and src/message/*.rs), together with theorems
settling the specification claims about it.

Conventions of the embedding:
 * Byte buffers are `List Nat`; every byte read from a buffer is taken
   mod 256 where its numeric value matters, matching Rust's `u8`.
 * Rust functions that can panic (slice indexing and slicing out of
   range, `unwrap`, checked `u8` arithmetic overflow in debug builds)
   are modelled in the `PResult` monad, whose `panic` constructor is
   distinct from the typed `err` constructor carrying a `MessageError`.
 * Field names and function names follow the Rust source.
-/

/-- The error enum of src/message/message.rs. It has exactly three
variants: `InsufficientLength(expected, actual)`, `InvalidUtf8` (whose
payload models `Utf8Error::valid_up_to`), and `UnknownMessageType(t)`.
The specification's `InvalidClassification` and `BoundsError` kinds have
no counterpart in the source. -/
inductive MessageError where
  | InsufficientLength (expected actual : Nat)
  | InvalidUtf8 (validUpTo : Nat)
  | UnknownMessageType (t : Nat)
  deriving DecidableEq

/-- Result of running a fallible, possibly panicking piece of Rust code:
`ok` is a normal return, `err` a typed `Result::Err`, and `panic` an
unrecoverable runtime fault (index out of bounds, `unwrap` on `Err`,
arithmetic overflow in a checked build). -/
inductive PResult (α : Type) where
  | ok (a : α)
  | err (e : MessageError)
  | panic
  deriving DecidableEq

namespace PResult

def bind {α β : Type} : PResult α → (α → PResult β) → PResult β
  | .ok a, f => f a
  | .err e, _ => .err e
  | .panic, _ => .panic

def map {α β : Type} (f : α → β) : PResult α → PResult β
  | .ok a => .ok (f a)
  | .err e => .err e
  | .panic => .panic

/-- Rust's `Result::unwrap`: a typed error becomes a panic. -/
def unwrap {α : Type} : PResult α → PResult α
  | .ok a => .ok a
  | .err _ => .panic
  | .panic => .panic

def isOk {α : Type} : PResult α → Bool
  | .ok _ => true
  | _ => false

end PResult

instance : Monad PResult where
  pure := PResult.ok
  bind := PResult.bind

@[simp] theorem PResult.ok_bind {α β : Type} (a : α) (f : α → PResult β) :
    (PResult.ok a) >>= f = f a := rfl

@[simp] theorem PResult.err_bind {α β : Type} (e : MessageError) (f : α → PResult β) :
    (PResult.err e : PResult α) >>= f = .err e := rfl

@[simp] theorem PResult.panic_bind {α β : Type} (f : α → PResult β) :
    (PResult.panic : PResult α) >>= f = .panic := rfl

@[simp] theorem PResult.pure_eq_ok {α : Type} (a : α) :
    (pure a : PResult α) = .ok a := rfl

/-- Rust's panicking slice index `data[i]`: the byte when `i` is in
range, a panic otherwise. -/
def idx (d : List Nat) (i : Nat) : PResult Nat :=
  if i < d.length then .ok (d.getD i 0) else .panic

/-- Rust's panicking subslice `&data[a..b]`: panics unless
`a ≤ b ∧ b ≤ data.len()`. -/
def subslice (d : List Nat) (a b : Nat) : PResult (List Nat) :=
  if a ≤ b ∧ b ≤ d.length then .ok ((d.drop a).take (b - a)) else .panic

/-- Checked `u8` arithmetic as in a debug build: any intermediate value
that does not fit in eight bits panics. (For the expressions in this
repository an intermediate overflow implies the final value overflows,
so a single check on the result is equivalent.) -/
def u8c (n : Nat) : PResult Nat :=
  if n < 256 then .ok n else .panic

/-- Rust's `b as i8` applied to a byte. -/
def i8val (b : Nat) : Int :=
  if b % 256 < 128 then (b % 256 : Int) else (b % 256 : Int) - 256

/-- Little-endian `u16` from two bytes, `u16::from_le_bytes`. -/
def u16le (b0 b1 : Nat) : Nat :=
  b0 % 256 + 256 * (b1 % 256)

/-- Little-endian `i16` from two bytes, `i16::from_le_bytes`. -/
def i16le (b0 b1 : Nat) : Int :=
  if u16le b0 b1 < 32768 then (u16le b0 b1 : Int) else (u16le b0 b1 : Int) - 65536

/-- Little-endian `u32` from four bytes, `u32::from_le_bytes`. -/
def u32le (b0 b1 b2 b3 : Nat) : Nat :=
  b0 % 256 + 256 * (b1 % 256) + 65536 * (b2 % 256) + 16777216 * (b3 % 256)

/-- Little-endian `i32` from four bytes, `i32::from_le_bytes`. -/
def i32le (b0 b1 b2 b3 : Nat) : Int :=
  if u32le b0 b1 b2 b3 < 2147483648 then (u32le b0 b1 b2 b3 : Int)
  else (u32le b0 b1 b2 b3 : Int) - 4294967296

/-- Rust's `char::is_whitespace` (the Unicode `White_Space` property),
on code points. -/
def isRustWhitespace (c : Nat) : Bool :=
  c = 0x09 || c = 0x0A || c = 0x0B || c = 0x0C || c = 0x0D || c = 0x20 ||
  c = 0x85 || c = 0xA0 || c = 0x1680 ||
  (0x2000 ≤ c && c ≤ 0x200A) || c = 0x2028 || c = 0x2029 ||
  c = 0x202F || c = 0x205F || c = 0x3000

/-- `s.trim_end_matches('\0').trim_end()` on a list of code points:
first all trailing NULs are removed, then all trailing whitespace of
the result. -/
def trimEndNulWs (l : List Nat) : List Nat :=
  ((l.reverse.dropWhile (fun c => c = 0)).dropWhile (fun c => isRustWhitespace c)).reverse

/-- Strict UTF-8 validation and decoding as performed by Rust's
`str::from_utf8`: rejects overlong encodings, surrogates and code
points above 0x10FFFF. On success returns the list of code points; on
failure returns `Utf8Error::valid_up_to`, the number of valid bytes
before the offending sequence. `p` is the byte position of the head of
`l` in the original buffer. -/
def utf8Decode (p : Nat) (l : List Nat) : Except Nat (List Nat) :=
  match l with
  | [] => .ok []
  | b :: rest =>
    if b ≤ 0x7F then
      match utf8Decode (p + 1) rest with
      | .ok cs => .ok (b :: cs)
      | .error e => .error e
    else if 0xC2 ≤ b ∧ b ≤ 0xDF then
      match rest with
      | b1 :: rest2 =>
        if 0x80 ≤ b1 ∧ b1 ≤ 0xBF then
          match utf8Decode (p + 2) rest2 with
          | .ok cs => .ok ((((b &&& 0x1F) <<< 6) ||| (b1 &&& 0x3F)) :: cs)
          | .error e => .error e
        else .error p
      | [] => .error p
    else if 0xE0 ≤ b ∧ b ≤ 0xEF then
      match rest with
      | b1 :: b2 :: rest3 =>
        if (0x80 ≤ b1 ∧ b1 ≤ 0xBF) ∧
           (b = 0xE0 → 0xA0 ≤ b1) ∧ (b = 0xED → b1 ≤ 0x9F) ∧
           (0x80 ≤ b2 ∧ b2 ≤ 0xBF) then
          match utf8Decode (p + 3) rest3 with
          | .ok cs => .ok ((((b &&& 0x0F) <<< 12) ||| ((b1 &&& 0x3F) <<< 6) ||| (b2 &&& 0x3F)) :: cs)
          | .error e => .error e
        else .error p
      | _ => .error p
    else if 0xF0 ≤ b ∧ b ≤ 0xF4 then
      match rest with
      | b1 :: b2 :: b3 :: rest4 =>
        if (0x80 ≤ b1 ∧ b1 ≤ 0xBF) ∧
           (b = 0xF0 → 0x90 ≤ b1) ∧ (b = 0xF4 → b1 ≤ 0x8F) ∧
           (0x80 ≤ b2 ∧ b2 ≤ 0xBF) ∧ (0x80 ≤ b3 ∧ b3 ≤ 0xBF) then
          match utf8Decode (p + 4) rest4 with
          | .ok cs => .ok ((((b &&& 0x07) <<< 18) ||| ((b1 &&& 0x3F) <<< 12) |||
                           ((b2 &&& 0x3F) <<< 6) ||| (b3 &&& 0x3F)) :: cs)
          | .error e => .error e
        else .error p
      | _ => .error p
    else .error p
termination_by l.length
decreasing_by all_goals (simp_all [List.length]; try omega)

/-- The struct of src/message/base_message.rs (`uas_id` is kept as the
list of decoded Unicode code points of the Rust `String`). -/
structure BaseMessage where
  id_type : Nat
  ua_type : Nat
  uas_id : List Nat
  reserved : List Nat
  deriving DecidableEq

/-- `BaseMessage::MESSAGE_TYPE` -/
def BaseMessage.MESSAGE_TYPE : Nat := 0x00

/-- `BaseMessage::EXPECTED_LENGTH` (note: 23, even though the decoder
reads up to index 23 and the struct's own tests expect a 24-byte
minimum). -/
def BaseMessage.EXPECTED_LENGTH : Nat := 23

/-- `BaseMessage::from_bytes` (src/message/base_message.rs, lines
29-69): length guard against `EXPECTED_LENGTH = 23`, nibble split of
byte 0, UTF-8 decoding of bytes 1..21 with trailing-NUL/whitespace
trimming, then the reserved slice `data[21..24]` — whose bounds check
panics on a 23-byte input. -/
def BaseMessage.from_bytes (data : List Nat) : PResult BaseMessage :=
  if data.length < BaseMessage.EXPECTED_LENGTH then
    .err (.InsufficientLength BaseMessage.EXPECTED_LENGTH data.length)
  else
    let byte0 := data.getD 0 0
    let id_type := (byte0 >>> 4) &&& 0x0F
    let ua_type := byte0 &&& 0x0F
    let uas_id_bytes := (data.drop 1).take 20
    match utf8Decode 0 uas_id_bytes with
    | .error e => .err (.InvalidUtf8 e)
    | .ok cps => do
        let uas_id := trimEndNulWs cps
        let reserved ← subslice data 21 24
        pure { id_type := id_type, ua_type := ua_type, uas_id := uas_id, reserved := reserved }

/-- The struct of src/message/position_vector_message.rs. Signed Rust
fields (`i8`, `i16`, `i32`) are Lean `Int`s. -/
structure PositionVectorMessage where
  run_status : Nat
  reserved_flag : Bool
  height_type : Nat
  track_direction : Bool
  speed_multiplier : Bool
  track_angle : Nat
  ground_speed : Int
  vertical_speed : Int
  latitude : Int
  longitude : Int
  pressure_altitude : Int
  geometric_altitude : Int
  ground_altitude : Int
  vertical_accuracy : Nat
  horizontal_accuracy : Nat
  speed_accuracy : Nat
  timestamp : Nat
  timestamp_accuracy : Nat
  reserved : Nat
  deriving DecidableEq

/-- `PositionVectorMessage::MESSAGE_TYPE` -/
def PositionVectorMessage.MESSAGE_TYPE : Nat := 0x01

/-- `PositionVectorMessage::EXPECTED_LENGTH` (note: 23, although the
decoder reads `data[23]` and the struct's doc comment and tests state a
24-byte total length). -/
def PositionVectorMessage.EXPECTED_LENGTH : Nat := 23

/-- `PositionVectorMessage::from_bytes` (src/message/position_vector_message.rs,
lines 70-139). The length guard admits 23-byte inputs, yet the final
`reserved` field is `data[23]`, so that read is modelled with the
panicking index `idx`. Note the source derives `track_direction` and
`speed_multiplier` from the same bit `byte0 & 0x01`. -/
def PositionVectorMessage.from_bytes (data : List Nat) : PResult PositionVectorMessage :=
  if data.length < PositionVectorMessage.EXPECTED_LENGTH then
    .err (.InsufficientLength PositionVectorMessage.EXPECTED_LENGTH data.length)
  else
    let byte0 := data.getD 0 0
    let run_status := (byte0 >>> 4) &&& 0x0F
    let reserved_flag := byte0 &&& 0x08 ≠ 0
    let height_type := (byte0 &&& 0x06) >>> 1
    let track_direction := byte0 &&& 0x01 ≠ 0
    let speed_multiplier := byte0 &&& 0x01 ≠ 0
    let track_angle := data.getD 1 0
    let ground_speed := i8val (data.getD 2 0)
    let vertical_speed := i8val (data.getD 3 0)
    let latitude := i32le (data.getD 4 0) (data.getD 5 0) (data.getD 6 0) (data.getD 7 0)
    let longitude := i32le (data.getD 8 0) (data.getD 9 0) (data.getD 10 0) (data.getD 11 0)
    let pressure_altitude := i16le (data.getD 12 0) (data.getD 13 0)
    let geometric_altitude := i16le (data.getD 14 0) (data.getD 15 0)
    let ground_altitude := i16le (data.getD 16 0) (data.getD 17 0)
    let byte18 := data.getD 18 0
    let vertical_accuracy := byte18 >>> 4
    let horizontal_accuracy := byte18 &&& 0x0F
    let byte19 := data.getD 19 0
    let speed_accuracy := byte19 &&& 0x0F
    let timestamp := u16le (data.getD 20 0) (data.getD 21 0)
    let byte22 := data.getD 22 0
    let timestamp_accuracy := byte22 &&& 0x0F
    do
      let reserved ← idx data 23
      pure {
        run_status := run_status, reserved_flag := reserved_flag,
        height_type := height_type, track_direction := track_direction,
        speed_multiplier := speed_multiplier, track_angle := track_angle,
        ground_speed := ground_speed, vertical_speed := vertical_speed,
        latitude := latitude, longitude := longitude,
        pressure_altitude := pressure_altitude,
        geometric_altitude := geometric_altitude,
        ground_altitude := ground_altitude,
        vertical_accuracy := vertical_accuracy,
        horizontal_accuracy := horizontal_accuracy,
        speed_accuracy := speed_accuracy, timestamp := timestamp,
        timestamp_accuracy := timestamp_accuracy, reserved := reserved }

/-- `PositionVectorMessage::calculate_full_track_angle` -/
def PositionVectorMessage.calculate_full_track_angle (m : PositionVectorMessage) : Nat :=
  if m.track_direction then m.track_angle + 180 else m.track_angle

/-- The struct of src/message/system_message.rs. -/
structure SystemMessage where
  coordinate_system : Nat
  reserved_bits : Nat
  classification_region : Nat
  station_type : Nat
  latitude : Int
  longitude : Int
  operation_count : Option Nat
  operation_radius : Option Nat
  altitude_upper : Option Nat
  altitude_lower : Option Nat
  ua_category : Nat
  ua_level : Nat
  station_altitude : Nat
  timestamp : Option Nat
  reserved : Option Nat
  deriving DecidableEq

/-- `SystemMessage::MESSAGE_TYPE` -/
def SystemMessage.MESSAGE_TYPE : Nat := 0x04

/-- `SystemMessage::EXPECTED_LENGTH` -/
def SystemMessage.EXPECTED_LENGTH : Nat := 24

/-- `SystemMessage::from_bytes` (src/message/system_message.rs, lines
51-165): length guard against 24; bitfields of byte 0; the
classification-region check returning `UnknownMessageType(1)` (the
error enum has no dedicated classification variant); latitude and
longitude; then the offset-threaded chain of optional fields exactly as
in the source (`data.len() > offset + k` checks, offset advanced only
when a field is present). All unguarded reads are within bounds once
the 24-byte guard has passed, so plain `getD` reads are value-faithful
to Rust's panicking indices here. -/
def SystemMessage.from_bytes (data : List Nat) : PResult SystemMessage :=
  if data.length < SystemMessage.EXPECTED_LENGTH then
    .err (.InsufficientLength SystemMessage.EXPECTED_LENGTH data.length)
  else
    let byte0 := data.getD 0 0
    let coordinate_system := (byte0 >>> 5) &&& 0x07
    let reserved_bits := (byte0 >>> 3) &&& 0x03
    let classification_region := (byte0 >>> 2) &&& 0x07
    if classification_region = 0 ∨ 3 < classification_region then
      .err (.UnknownMessageType 1)
    else
      let station_type := byte0 &&& 0x03
      let latitude := i32le (data.getD 1 0) (data.getD 2 0) (data.getD 3 0) (data.getD 4 0)
      let longitude := i32le (data.getD 5 0) (data.getD 6 0) (data.getD 7 0) (data.getD 8 0)
      let o0 := 9
      let s1 := if o0 + 1 < data.length then
          (some (u16le (data.getD o0 0) (data.getD (o0 + 1) 0)), o0 + 2)
        else ((none : Option Nat), o0)
      let operation_count := s1.1
      let o1 := s1.2
      let s2 := if o1 < data.length then (some (data.getD o1 0), o1 + 1)
        else ((none : Option Nat), o1)
      let operation_radius := s2.1
      let o2 := s2.2
      let s3 := if o2 + 1 < data.length then
          (some (u16le (data.getD o2 0) (data.getD (o2 + 1) 0)), o2 + 2)
        else ((none : Option Nat), o2)
      let altitude_upper := s3.1
      let o3 := s3.2
      let s4 := if o3 + 1 < data.length then
          (some (u16le (data.getD o3 0) (data.getD (o3 + 1) 0)), o3 + 2)
        else ((none : Option Nat), o3)
      let altitude_lower := s4.1
      let o4 := s4.2
      let ua_category := data.getD o4 0
      let ua_level := data.getD (o4 + 1) 0
      let o5 := o4 + 2
      if o5 + 1 < data.length then
        let station_altitude := u16le (data.getD o5 0) (data.getD (o5 + 1) 0)
        let o6 := o5 + 2
        let s7 := if o6 + 3 < data.length then
            (some (u32le (data.getD o6 0) (data.getD (o6 + 1) 0)
                         (data.getD (o6 + 2) 0) (data.getD (o6 + 3) 0)), o6 + 4)
          else ((none : Option Nat), o6)
        let timestamp := s7.1
        let o7 := s7.2
        let reserved := if o7 < data.length then some (data.getD o7 0) else none
        .ok {
          coordinate_system := coordinate_system, reserved_bits := reserved_bits,
          classification_region := classification_region, station_type := station_type,
          latitude := latitude, longitude := longitude,
          operation_count := operation_count, operation_radius := operation_radius,
          altitude_upper := altitude_upper, altitude_lower := altitude_lower,
          ua_category := ua_category, ua_level := ua_level,
          station_altitude := station_altitude, timestamp := timestamp,
          reserved := reserved }
      else .err (.InsufficientLength (o5 + 2) data.length)

/-- The tagged union of src/message/mod.rs. -/
inductive AnyMessage where
  | Base (m : BaseMessage)
  | PositionVector (m : PositionVectorMessage)
  | System (m : SystemMessage)
  deriving DecidableEq

/-- `AnyMessage::from_bytes` (src/message/mod.rs, lines 18-38): the
dispatch core. It reads the message-type nibble from the high four bits
of byte 0 and hands the matched decoder `content = &data[1..]`, the
tail of the pack with byte 0 removed. Unmatched nibbles produce
`UnknownMessageType` carrying the nibble. -/
def AnyMessage.from_bytes (data : List Nat) : PResult AnyMessage :=
  match data with
  | [] => .err (.InsufficientLength 1 0)
  | b :: rest =>
    let message_type := (b >>> 4) &&& 0x0F
    if message_type = BaseMessage.MESSAGE_TYPE then
      (BaseMessage.from_bytes rest).map AnyMessage.Base
    else if message_type = PositionVectorMessage.MESSAGE_TYPE then
      (PositionVectorMessage.from_bytes rest).map AnyMessage.PositionVector
    else if message_type = SystemMessage.MESSAGE_TYPE then
      (SystemMessage.from_bytes rest).map AnyMessage.System
    else .err (.UnknownMessageType message_type)

/-- The `Box<dyn Message>` result of `create_special_message`
(src/main.rs): it can only hold the two message kinds that function
dispatches on. -/
inductive SpecialMessage where
  | Base (m : BaseMessage)
  | PositionVector (m : PositionVectorMessage)
  deriving DecidableEq

/-- `create_special_message` (src/main.rs, lines 115-147). This function
is never called by the capture path (the pack loop uses
`AnyMessage::from_bytes`); it reads `data[0]` without an emptiness
guard, has no `System` branch, and its fallthrough returns
`UnknownMessageType(0)` — the payload is a literal 0, not the nibble. -/
def create_special_message (data : List Nat) : PResult SpecialMessage :=
  do
    let b0 ← idx data 0
    let message_type := (b0 >>> 4) &&& 0x0F
    let content := data.tail
    if message_type = BaseMessage.MESSAGE_TYPE then
      (BaseMessage.from_bytes content).map SpecialMessage.Base
    else if message_type = PositionVectorMessage.MESSAGE_TYPE then
      (PositionVectorMessage.from_bytes content).map SpecialMessage.PositionVector
    else
      .err (.UnknownMessageType 0)

/-- One vendor-specific information element as delivered by the external
802.11 parser (libwifi's `VendorSpecificInfo`): element id, OUI, OUI
type and opaque data bytes. -/
structure VendorSpecificElement where
  element_id : Nat
  oui : List Nat
  oui_type : Nat
  data : List Nat
  deriving DecidableEq

/-- The Remote-ID element test of `parse_80211_mgt` (src/main.rs, line
77): the code inspects only `vendor_specific[0]`, so an empty list
panics (Vec index out of bounds) and a qualifying element at any later
index is never looked at. The returned option is the element whose data
the pack loop will consume (`none` = frame skipped). -/
def locateRidElement (ves : List VendorSpecificElement) : PResult (Option VendorSpecificElement) :=
  match ves with
  | [] => .panic
  | e :: _ =>
    if e.element_id = 221 ∧ e.oui_type = 13 then .ok (some e) else .ok none

/-- The output record populated by the pack loop of `parse_80211_mgt`
(src/main.rs initialises `rid`, `longitude` and `latitude`; `rid` is
kept as code points like `BaseMessage.uas_id`). -/
structure UploadData where
  rid : List Nat
  longitude : Int
  latitude : Int
  deriving DecidableEq

/-- The pack slice taken by iteration `i` of the loop in
`parse_80211_mgt` (src/main.rs, lines 85-87):
`&vendor_data[(25*i+4)..(25*i+29)]` with the bounds computed in `u8`
arithmetic (`i` is a `u8`), then slicing with Rust's panicking range
index. The pack size 25 is a hard constant; the element's declared
pack-size byte is only logged. -/
def packSlice (vendor_data : List Nat) (i : Nat) : PResult (List Nat) := do
  let a ← u8c (25 * i + 4)
  let b ← u8c (25 * i + 29)
  subslice vendor_data a b

/-- One iteration of the pack loop of `parse_80211_mgt` (src/main.rs,
lines 83-103): slice the pack, decode it with
`AnyMessage::from_bytes(pack).unwrap()` — a decode failure therefore
panics — and fold the decoded record into the `UploadData`. -/
def packStep (vendor_data : List Nat) (acc : UploadData) (i : Nat) : PResult UploadData := do
  let pack ← packSlice vendor_data i
  let message ← (AnyMessage.from_bytes pack).unwrap
  pure (match message with
    | .Base bm => { acc with rid := bm.uas_id }
    | .PositionVector pvm => { acc with longitude := pvm.longitude, latitude := pvm.latitude }
    | .System _ => acc)

/-- The body of `parse_80211_mgt` after the Remote-ID element has been
accepted (src/main.rs, lines 78-103): the diagnostic log reads
`vendor_data[0]`, `vendor_data[3]` and `vendor_data[2]` (all panicking
indices), the pack count is `vendor_data[3]`, and the loop runs
`packStep` for `i in 0..count` over a fresh `UploadData`. -/
def processVendorData (vendor_data : List Nat) : PResult UploadData := do
  let _ ← idx vendor_data 0
  let _ ← idx vendor_data 3
  let _ ← idx vendor_data 2
  let count ← idx vendor_data 3
  (List.range count).foldlM (packStep vendor_data) { rid := [], longitude := 0, latitude := 0 }

/-- The metrics struct of `parse_radiotap` (src/main.rs). Rust stores
`signal` and `rate` as `f32`; both are exact there (`i8` values and
half-integers), so they are modelled as `Int` and `Rat`. -/
structure RadiotapHeader where
  signal : Int
  rate : Rat
  channel_freq : Nat
  deriving DecidableEq

/-- The field walk of `parse_radiotap` (src/main.rs, lines 167-186):
`while offset < header_len` read a field-type byte and then its value
bytes — signal (type 0x03, one byte as `i8`), rate (type 0x02, one byte
times 0.5), channel (type 0x12, two little-endian bytes, four bytes
consumed) — stopping at the first unrecognised type. All reads use
Rust's panicking index. `fuel` only bounds the recursion; each
iteration advances `offset` by at least 2, so the fuel passed by
`parse_radiotap` (header_len + 1) is never exhausted. -/
def rtLoop (data : List Nat) (header_len : Nat) :
    Nat → Nat → Int → Rat → Nat → PResult (Int × Rat × Nat)
  | 0, _, _, _, _ => .panic
  | fuel + 1, offset, signal, rate, channel_freq =>
    if offset < header_len then do
      let field_type ← idx data offset
      if field_type = 0x03 then do
        let b ← idx data (offset + 1)
        rtLoop data header_len fuel (offset + 2) (i8val b) rate channel_freq
      else if field_type = 0x02 then do
        let b ← idx data (offset + 1)
        rtLoop data header_len fuel (offset + 2) signal ((b % 256 : Rat) / 2) channel_freq
      else if field_type = 0x12 then do
        let b0 ← idx data (offset + 1)
        let b1 ← idx data (offset + 2)
        rtLoop data header_len fuel (offset + 5) signal rate (u16le b0 b1)
      else .ok (signal, rate, channel_freq)
    else .ok (signal, rate, channel_freq)

/-- `parse_radiotap` (src/main.rs, lines 159-189): reads the declared
header length at byte 2, walks the recognised fields, and returns the
metrics together with `&data[header_len..]` — the candidate 802.11
frame. The final slice panics whenever the declared length exceeds the
buffer; the function's Rust signature has no error path at all. -/
def parse_radiotap (data : List Nat) : PResult (RadiotapHeader × List Nat) := do
  let header_len ← idx data 2
  let r ← rtLoop data header_len (header_len + 1) 0 0 0 0
  let remaining ← subslice data header_len data.length
  pure ({ signal := r.1, rate := r.2.1, channel_freq := r.2.2 }, remaining)

/-! ### Helper lemmas -/

@[simp] theorem PResult.bind_ok {α β : Type} (a : α) (f : α → PResult β) :
    PResult.bind (.ok a) f = f a := rfl

@[simp] theorem PResult.bind_err {α β : Type} (e : MessageError) (f : α → PResult β) :
    PResult.bind (.err e : PResult α) f = .err e := rfl

@[simp] theorem PResult.bind_panic {α β : Type} (f : α → PResult β) :
    PResult.bind (.panic : PResult α) f = .panic := rfl

theorem subslice_ok_or_panic (d : List Nat) (a b : Nat) :
    (∃ l, subslice d a b = .ok l) ∨ subslice d a b = .panic := by
  unfold subslice
  split
  · exact Or.inl ⟨_, rfl⟩
  · exact Or.inr rfl

theorem u8c_ok_or_panic (n : Nat) : u8c n = .ok n ∨ u8c n = .panic := by
  unfold u8c
  split
  · exact Or.inl rfl
  · exact Or.inr rfl

theorem unwrap_ok_or_panic {α : Type} (r : PResult α) :
    (∃ a, r.unwrap = .ok a) ∨ r.unwrap = .panic := by
  cases r with
  | ok a => exact Or.inl ⟨a, rfl⟩
  | err e => exact Or.inr rfl
  | panic => exact Or.inr rfl

theorem idx_ok_or_panic (d : List Nat) (j : Nat) :
    idx d j = .ok (d.getD j 0) ∨ idx d j = .panic := by
  unfold idx
  split
  · exact Or.inl rfl
  · exact Or.inr rfl

/-- A `packStep` never produces a typed error: its only failure mode is
a panic (from slicing, overflow or `unwrap`). -/
theorem packStep_ok_or_panic (vd : List Nat) (acc : UploadData) (i : Nat) :
    (∃ r, packStep vd acc i = .ok r) ∨ packStep vd acc i = .panic := by
  unfold packStep packSlice
  rcases u8c_ok_or_panic (25 * i + 4) with h4 | h4 <;> rw [h4] <;>
    simp only [PResult.bind_ok, PResult.bind_panic, bind]
  · rcases u8c_ok_or_panic (25 * i + 29) with h29 | h29 <;> rw [h29] <;>
      simp only [PResult.bind_ok, PResult.bind_panic]
    · rcases subslice_ok_or_panic vd (25 * i + 4) (25 * i + 29) with ⟨l, hl⟩ | hl <;>
        rw [hl] <;> simp only [PResult.bind_ok, PResult.bind_panic]
      · rcases unwrap_ok_or_panic (AnyMessage.from_bytes l) with ⟨m, hm⟩ | hm <;>
          rw [hm] <;> simp only [PResult.bind_ok, PResult.bind_panic]
        · exact Or.inl ⟨_, rfl⟩
        · exact Or.inr trivial
      · exact Or.inr trivial
    · exact Or.inr trivial
  · exact Or.inr trivial

/-- If some index in the list makes the folded step panic whatever the
accumulator, and no step ever returns a typed error, the whole monadic
fold panics. -/
theorem foldlM_panic_of_mem {σ : Type} (f : σ → Nat → PResult σ) (l : List Nat) (x : Nat)
    (hmem : x ∈ l)
    (hpanic : ∀ s, f s x = .panic)
    (hok : ∀ s y, (∃ r, f s y = .ok r) ∨ f s y = .panic) :
    ∀ s, l.foldlM f s = .panic := by
  induction l with
  | nil => cases hmem
  | cons a t ih =>
    intro s
    rw [List.foldlM_cons]
    rcases hok s a with ⟨r, hr⟩ | hr
    · rw [hr]
      simp only [PResult.ok_bind]
      rcases List.mem_cons.mp hmem with rfl | hx
      · rw [hpanic s] at hr; cases hr
      · exact ih hx r
    · rw [hr]; rfl

/-- The radiotap field walk never produces a typed error. -/
theorem rtLoop_ok_or_panic (data : List Nat) (header_len : Nat) :
    ∀ (fuel offset : Nat) (s : Int) (r : Rat) (c : Nat),
    (∃ v, rtLoop data header_len fuel offset s r c = .ok v) ∨
      rtLoop data header_len fuel offset s r c = .panic := by
  intro fuel
  induction fuel with
  | zero => intro _ _ _ _; exact Or.inr rfl
  | succ n ih =>
    intro offset s r c
    show (∃ v, rtLoop data header_len (n + 1) offset s r c = .ok v) ∨ _
    rw [rtLoop]
    split
    · rcases idx_ok_or_panic data offset with h0 | h0 <;> rw [h0] <;>
        simp only [PResult.bind_ok, PResult.bind_panic, bind]
      · split
        · rcases idx_ok_or_panic data (offset + 1) with h1 | h1 <;> rw [h1] <;>
            simp only [PResult.bind_ok, PResult.bind_panic]
          · exact ih _ _ _ _
          · exact Or.inr trivial
        · split
          · rcases idx_ok_or_panic data (offset + 1) with h1 | h1 <;> rw [h1] <;>
              simp only [PResult.bind_ok, PResult.bind_panic]
            · exact ih _ _ _ _
            · exact Or.inr trivial
          · split
            · rcases idx_ok_or_panic data (offset + 1) with h1 | h1 <;> rw [h1] <;>
                simp only [PResult.bind_ok, PResult.bind_panic]
              · rcases idx_ok_or_panic data (offset + 2) with h2 | h2 <;> rw [h2] <;>
                  simp only [PResult.bind_ok, PResult.bind_panic]
                · exact ih _ _ _ _
                · exact Or.inr trivial
              · exact Or.inr trivial
            · exact Or.inl ⟨_, rfl⟩
      · exact Or.inr trivial
    · exact Or.inl ⟨_, rfl⟩

theorem system_from_bytes_short (d : List Nat) (h : d.length < 24) :
    SystemMessage.from_bytes d = .err (.InsufficientLength 24 d.length) := by
  unfold SystemMessage.from_bytes SystemMessage.EXPECTED_LENGTH
  rw [if_pos h]

theorem system_from_bytes_badcr (d : List Nat) (h : 24 ≤ d.length)
    (hcr : (d.getD 0 0 >>> 2) &&& 0x07 = 0 ∨ 3 < (d.getD 0 0 >>> 2) &&& 0x07) :
    SystemMessage.from_bytes d = .err (.UnknownMessageType 1) := by
  unfold SystemMessage.from_bytes SystemMessage.EXPECTED_LENGTH
  rw [if_neg (by omega : ¬ d.length < 24)]
  simp only []
  rw [if_pos hcr]

/-- Once the 24-byte guard and the classification check have passed,
every length test of the optional chain before the final reserved byte
succeeds, so `SystemMessage::from_bytes` returns exactly this record. -/
theorem system_from_bytes_ok (d : List Nat) (h : 24 ≤ d.length)
    (hcr : ¬((d.getD 0 0 >>> 2) &&& 0x07 = 0 ∨ 3 < (d.getD 0 0 >>> 2) &&& 0x07)) :
    SystemMessage.from_bytes d = .ok {
      coordinate_system := (d.getD 0 0 >>> 5) &&& 0x07,
      reserved_bits := (d.getD 0 0 >>> 3) &&& 0x03,
      classification_region := (d.getD 0 0 >>> 2) &&& 0x07,
      station_type := d.getD 0 0 &&& 0x03,
      latitude := i32le (d.getD 1 0) (d.getD 2 0) (d.getD 3 0) (d.getD 4 0),
      longitude := i32le (d.getD 5 0) (d.getD 6 0) (d.getD 7 0) (d.getD 8 0),
      operation_count := some (u16le (d.getD 9 0) (d.getD 10 0)),
      operation_radius := some (d.getD 11 0),
      altitude_upper := some (u16le (d.getD 12 0) (d.getD 13 0)),
      altitude_lower := some (u16le (d.getD 14 0) (d.getD 15 0)),
      ua_category := d.getD 16 0,
      ua_level := d.getD 17 0,
      station_altitude := u16le (d.getD 18 0) (d.getD 19 0),
      timestamp := some (u32le (d.getD 20 0) (d.getD 21 0) (d.getD 22 0) (d.getD 23 0)),
      reserved := if 24 < d.length then some (d.getD 24 0) else none } := by
  unfold SystemMessage.from_bytes SystemMessage.EXPECTED_LENGTH
  rw [if_neg (by omega : ¬ d.length < 24)]
  simp only []
  rw [if_neg hcr]
  have h10 : 9 + 1 < d.length := by omega
  have h11 : 11 < d.length := by omega
  have h13 : 12 + 1 < d.length := by omega
  have h15 : 14 + 1 < d.length := by omega
  have h19 : 16 + 2 + 1 < d.length := by omega
  have h23 : 16 + 2 + 2 + 3 < d.length := by omega
  simp only [if_pos h10, if_pos h11, if_pos h13, if_pos h15, if_pos h19, if_pos h23]

/-! ### Claim theorems -/

/-- Claim C1 (evidence of the code bug): the LocationVector decoder does
not return `InsufficientLength` for every input shorter than its 24-byte
format and is not panic-free there. A 23-byte input passes the guard
(`EXPECTED_LENGTH` is 23) and then panics on the out-of-bounds read
`data[23]`, while a 22-byte input yields `InsufficientLength(23, 22)` —
expected 23, though the decoder's doc comment, its own unit test
(`InsufficientLength(24, 23)`) and the fixed format say 24. -/
theorem positionVector_len23_panics :
    PositionVectorMessage.from_bytes (List.replicate 23 0) = .panic ∧
    PositionVectorMessage.from_bytes (List.replicate 22 0) =
      .err (.InsufficientLength 23 22) := by decide

/-- Claim C2 counterexample: dispatching a pack whose high nibble of
byte 0 is 0x1 is NOT the same as running the LocationVector decoder on
the pack itself — the dispatcher strips byte 0 first, so the decoder
never sees it. -/
theorem anyMessage_dispatch_whole_pack_cex :
    AnyMessage.from_bytes (0x11 :: List.replicate 24 0) ≠
      PResult.map AnyMessage.PositionVector
        (PositionVectorMessage.from_bytes (0x11 :: List.replicate 24 0)) := by decide

/-- Claim C2 (amended): the dispatch core reads the message-type nibble
from the high 4 bits of byte 0 but hands the matched decoder only the
truncated view `data[1..]`, excluding byte 0: for nibble 0x0 the result
is the BasicId decoder on the tail, for 0x1 the LocationVector decoder
on the tail, for 0x4 the System decoder on the tail, and any other
nibble fails with `UnknownMessageType`. -/
theorem anyMessage_dispatch_truncated_tail (b : Nat) (rest : List Nat) :
    AnyMessage.from_bytes (b :: rest) =
      (if (b >>> 4) &&& 0x0F = 0 then (BaseMessage.from_bytes rest).map AnyMessage.Base
       else if (b >>> 4) &&& 0x0F = 1 then
         (PositionVectorMessage.from_bytes rest).map AnyMessage.PositionVector
       else if (b >>> 4) &&& 0x0F = 4 then
         (SystemMessage.from_bytes rest).map AnyMessage.System
       else .err (.UnknownMessageType ((b >>> 4) &&& 0x0F))) := rfl

/-- Claim C3 counterexample: a vendor element whose declared pack count
needs bytes beyond the element's data (count 1 but data length 6 < 29)
makes the pack loop panic via Rust's slice bounds check. The result is
`panic`, not a typed error — the error enum has no bounds kind at all. -/
theorem pack_split_oob_panics_cex :
    processVendorData [0, 0, 25, 1, 0, 0] = .panic := by decide

/-- Claim C3 (amended): the pack loop slices packs of the fixed size 25
(the declared pack-size byte is only logged, never used). When
`4 + 25·N` exceeds the element's data length the loop panics (slice
bounds check, or `u8` overflow of the offset arithmetic) instead of
returning a typed bounds error; when pack `i` lies within bounds and
its offsets fit in a `u8`, the pack is exactly the bytes
`[25·i + 4, 25·i + 29)`. -/
theorem pack_split_bounds (vd : List Nat) (i : Nat) :
    (4 ≤ vd.length → vd.length < 4 + 25 * vd.getD 3 0 → processVendorData vd = .panic) ∧
    (25 * i + 29 ≤ 255 → 25 * i + 29 ≤ vd.length →
      packSlice vd i = .ok ((vd.drop (25 * i + 4)).take 25)) := by
  constructor
  · intro h4 hoob
    unfold processVendorData
    have e0 : idx vd 0 = .ok (vd.getD 0 0) := by unfold idx; rw [if_pos (by omega)]
    have e3 : idx vd 3 = .ok (vd.getD 3 0) := by unfold idx; rw [if_pos (by omega)]
    have e2 : idx vd 2 = .ok (vd.getD 2 0) := by unfold idx; rw [if_pos (by omega)]
    rw [e0, e2, e3]
    simp only [PResult.bind_ok, bind]
    refine foldlM_panic_of_mem (packStep vd) (List.range (vd.getD 3 0)) (vd.getD 3 0 - 1)
      (List.mem_range.mpr (by omega)) ?_ (fun s y => packStep_ok_or_panic vd s y) _
    intro s
    unfold packStep packSlice
    by_cases hc4 : 25 * (vd.getD 3 0 - 1) + 4 < 256
    · have h4ok : u8c (25 * (vd.getD 3 0 - 1) + 4) = .ok (25 * (vd.getD 3 0 - 1) + 4) := by
        unfold u8c; rw [if_pos hc4]
      rw [h4ok]
      simp only [PResult.bind_ok, bind]
      by_cases hc29 : 25 * (vd.getD 3 0 - 1) + 29 < 256
      · have h29ok : u8c (25 * (vd.getD 3 0 - 1) + 29) = .ok (25 * (vd.getD 3 0 - 1) + 29) := by
          unfold u8c; rw [if_pos hc29]
        rw [h29ok]
        simp only [PResult.bind_ok]
        have hs : subslice vd (25 * (vd.getD 3 0 - 1) + 4) (25 * (vd.getD 3 0 - 1) + 29)
            = .panic := by
          unfold subslice
          rw [if_neg]
          rintro ⟨-, hb⟩
          omega
        rw [hs]
        simp only [PResult.bind_panic]
      · have hp : u8c (25 * (vd.getD 3 0 - 1) + 29) = .panic := by
          unfold u8c; rw [if_neg hc29]
        rw [hp]
        simp only [PResult.bind_panic]
    · have hp : u8c (25 * (vd.getD 3 0 - 1) + 4) = .panic := by
        unfold u8c; rw [if_neg hc4]
      rw [hp]
      simp only [PResult.bind_panic, bind]
  · intro h255 hlen
    unfold packSlice
    have ha : u8c (25 * i + 4) = .ok (25 * i + 4) := by unfold u8c; rw [if_pos (by omega)]
    have hb : u8c (25 * i + 29) = .ok (25 * i + 29) := by unfold u8c; rw [if_pos (by omega)]
    rw [ha, hb]
    simp only [PResult.bind_ok, bind]
    unfold subslice
    rw [if_pos ⟨by omega, hlen⟩]
    have h25 : 25 * i + 29 - (25 * i + 4) = 25 := by omega
    rw [h25]

/-- Claim C3 witness: a concrete element of length 29 declaring two
packs panics, while its first pack (in bounds) is sliced exactly. -/
theorem pack_split_bounds_witness :
    processVendorData ([0, 0, 25, 2] ++ (0x20 :: List.replicate 24 0)) = .panic ∧
    packSlice ([0, 0, 25, 2] ++ (0x20 :: List.replicate 24 0)) 0 =
      .ok ((([0, 0, 25, 2] ++ (0x20 :: List.replicate 24 0)).drop (25 * 0 + 4)).take 25) :=
  ⟨(pack_split_bounds ([0, 0, 25, 2] ++ (0x20 :: List.replicate 24 0)) 0).1
      (by decide) (by decide),
   (pack_split_bounds ([0, 0, 25, 2] ++ (0x20 :: List.replicate 24 0)) 0).2
      (by decide) (by decide)⟩

/-- Claim C4 (evidence of the code bug): with a vendor element holding
two packs — the first with the unknown type nibble 0x2 (a plain typed
decode failure), the second a decodable LocationVector pack — the pack
loop panics, because `AnyMessage::from_bytes(pack).unwrap()` turns the
first pack's typed error into a panic. The failure is not logged and
skipped, and the second pack is never processed. -/
theorem pack_decode_failure_aborts :
    AnyMessage.from_bytes (0x20 :: List.replicate 24 0) = .err (.UnknownMessageType 2) ∧
    (AnyMessage.from_bytes (0x10 :: List.replicate 24 0)).isOk = true ∧
    processVendorData
      ([54, 0, 25, 2] ++ (0x20 :: List.replicate 24 0) ++ (0x10 :: List.replicate 24 0))
      = .panic := by decide

/-- Claim C5 counterexample: a 24-byte System input whose
classification region decodes to 4 (> 3) fails, but with
`UnknownMessageType(1)` — there is no dedicated invalid-classification
kind in the error enum (`MessageError` has exactly the three variants of
the source). -/
theorem system_classification_no_dedicated_error_cex :
    SystemMessage.from_bytes (0x10 :: List.replicate 23 0) =
      .err (.UnknownMessageType 1) := by decide

/-- Claim C5 (amended): for every System input of at least 24 bytes (so
the field is decoded at all), a classification region of 0 or above 3
always fails the whole record with `UnknownMessageType(1)` — the reused
unknown-type error, the taxonomy having no dedicated classification
kind — regardless of every other field value, with no partial output. -/
theorem system_classification_always_rejected (d : List Nat) (hlen : 24 ≤ d.length)
    (hcr : (d.getD 0 0 >>> 2) &&& 0x07 = 0 ∨ 3 < (d.getD 0 0 >>> 2) &&& 0x07) :
    SystemMessage.from_bytes d = .err (.UnknownMessageType 1) :=
  system_from_bytes_badcr d hlen hcr

/-- Claim C5 witness: the all-zero 24-byte input has classification
region 0 and is rejected. -/
theorem system_classification_always_rejected_witness :
    SystemMessage.from_bytes (List.replicate 24 0) = .err (.UnknownMessageType 1) :=
  system_classification_always_rejected (List.replicate 24 0) (by decide) (by decide)

/-- Claim C6 counterexample: a 19-byte System input does fail with an
insufficient-length error — `InsufficientLength(24, 19)` — although the
claim says inputs of length at least 19 never do. -/
theorem system_min_length_19_cex :
    SystemMessage.from_bytes (List.replicate 19 0) =
      .err (.InsufficientLength 24 19) := by decide

/-- Claim C6 (amended): the System decoder's required minimum input
length is 24 bytes (`EXPECTED_LENGTH = 24`): an input shorter than 24
bytes fails with `InsufficientLength(24, actual)`, and an input of at
least 24 bytes never fails for length — its result is either the
classification rejection or a decoded record. -/
theorem system_min_length_is_24 (d : List Nat) :
    (d.length < 24 ∧ SystemMessage.from_bytes d = .err (.InsufficientLength 24 d.length)) ∨
    (24 ≤ d.length ∧ (SystemMessage.from_bytes d = .err (.UnknownMessageType 1) ∨
      ∃ m, SystemMessage.from_bytes d = .ok m)) := by
  by_cases hlen : d.length < 24
  · exact Or.inl ⟨hlen, system_from_bytes_short d hlen⟩
  · refine Or.inr ⟨by omega, ?_⟩
    by_cases hcr : (d.getD 0 0 >>> 2) &&& 0x07 = 0 ∨ 3 < (d.getD 0 0 >>> 2) &&& 0x07
    · exact Or.inl (system_from_bytes_badcr d (by omega) hcr)
    · exact Or.inr ⟨_, system_from_bytes_ok d (by omega) hcr⟩

/-- Claim C7 counterexample: with a non-qualifying element at index 0
and a qualifying Remote-ID element (id 221, OUI type 13) at index 1,
the locator selects nothing (the frame is skipped); and on an empty
vendor-element list the locator panics (`vendor_specific[0]` index out
of bounds) instead of skipping normally. -/
theorem locate_rid_first_qualifying_cex :
    locateRidElement [⟨0, [], 0, []⟩, ⟨221, [], 13, []⟩] = .ok none ∧
    locateRidElement [] = .panic := by decide

/-- Claim C7 (amended): the locator inspects only the element at index
0 — its result does not depend on the rest of the list. It selects that
element iff its element id is 221 and its OUI type is 13; a qualifying
element at any later index is ignored, and the empty list panics
rather than producing a normal skip. -/
theorem locate_rid_index0_only (e : VendorSpecificElement)
    (rest rest2 : List VendorSpecificElement) :
    locateRidElement (e :: rest) = locateRidElement (e :: rest2) ∧
    locateRidElement [] = .panic ∧
    locateRidElement (e :: rest) =
      .ok (if e.element_id = 221 ∧ e.oui_type = 13 then some e else none) := by
  refine ⟨rfl, rfl, ?_⟩
  show (if e.element_id = 221 ∧ e.oui_type = 13 then PResult.ok (some e)
        else PResult.ok none) = _
  by_cases hc : e.element_id = 221 ∧ e.oui_type = 13
  · rw [if_pos hc, if_pos hc]
  · rw [if_neg hc, if_neg hc]

/-- Claim C9: for every pack whose message-type nibble (high 4 bits of
byte 0) is outside {0x0, 0x1, 0x4}, the dispatch core
`AnyMessage::from_bytes` fails with `UnknownMessageType` carrying that
offending nibble, and no typed decoder runs — the result is exactly the
dispatch error. -/
theorem anyMessage_unknown_nibble_error (b : Nat) (rest : List Nat)
    (h0 : (b >>> 4) &&& 0x0F ≠ 0) (h1 : (b >>> 4) &&& 0x0F ≠ 1)
    (h4 : (b >>> 4) &&& 0x0F ≠ 4) :
    AnyMessage.from_bytes (b :: rest) =
      .err (.UnknownMessageType ((b >>> 4) &&& 0x0F)) := by
  unfold AnyMessage.from_bytes BaseMessage.MESSAGE_TYPE
    PositionVectorMessage.MESSAGE_TYPE SystemMessage.MESSAGE_TYPE
  simp only []
  rw [if_neg h0, if_neg h1, if_neg h4]

/-- Claim C9 witness: nibble 0x2. -/
theorem anyMessage_unknown_nibble_error_witness :
    AnyMessage.from_bytes [0x20] = .err (.UnknownMessageType 2) :=
  anyMessage_unknown_nibble_error 0x20 [] (by decide) (by decide) (by decide)

/-- Claim C10: every record the System decoder accepts has
`operation_count`, `operation_radius`, `altitude_upper`,
`altitude_lower` and `timestamp` present — the enforced 24-byte minimum
makes every optional-presence check before the final reserved byte
succeed — and the trailing `reserved` field is present exactly when the
input is at least 25 bytes long. -/
theorem system_ok_optionals_present (d : List Nat) (msg : SystemMessage)
    (h : SystemMessage.from_bytes d = .ok msg) :
    msg.operation_count.isSome ∧ msg.operation_radius.isSome ∧
    msg.altitude_upper.isSome ∧ msg.altitude_lower.isSome ∧
    msg.timestamp.isSome ∧ (msg.reserved.isSome ↔ 25 ≤ d.length) := by
  by_cases hlen : d.length < 24
  · rw [system_from_bytes_short d hlen] at h
    cases h
  · by_cases hcr : (d.getD 0 0 >>> 2) &&& 0x07 = 0 ∨ 3 < (d.getD 0 0 >>> 2) &&& 0x07
    · rw [system_from_bytes_badcr d (by omega) hcr] at h
      cases h
    · rw [system_from_bytes_ok d (by omega) hcr] at h
      injection h with h
      subst h
      refine ⟨rfl, rfl, rfl, rfl, rfl, ?_⟩
      by_cases h24 : 24 < d.length
      · rw [if_pos h24]
        exact iff_of_true rfl (by omega)
      · rw [if_neg h24]
        exact iff_of_false (by simp) (by omega)

/-- Claim C10 witness: a concrete 24-byte accepted input; its record
has every optional field before `reserved` present and `reserved`
absent. -/
theorem system_ok_optionals_present_witness :
    ({ coordinate_system := 0, reserved_bits := 0, classification_region := 1,
       station_type := 0, latitude := 0, longitude := 0,
       operation_count := some 0, operation_radius := some 0,
       altitude_upper := some 0, altitude_lower := some 0,
       ua_category := 0, ua_level := 0, station_altitude := 0,
       timestamp := some 0, reserved := none } : SystemMessage).operation_count.isSome ∧
    ({ coordinate_system := 0, reserved_bits := 0, classification_region := 1,
       station_type := 0, latitude := 0, longitude := 0,
       operation_count := some 0, operation_radius := some 0,
       altitude_upper := some 0, altitude_lower := some 0,
       ua_category := 0, ua_level := 0, station_altitude := 0,
       timestamp := some 0, reserved := none } : SystemMessage).operation_radius.isSome ∧
    ({ coordinate_system := 0, reserved_bits := 0, classification_region := 1,
       station_type := 0, latitude := 0, longitude := 0,
       operation_count := some 0, operation_radius := some 0,
       altitude_upper := some 0, altitude_lower := some 0,
       ua_category := 0, ua_level := 0, station_altitude := 0,
       timestamp := some 0, reserved := none } : SystemMessage).altitude_upper.isSome ∧
    ({ coordinate_system := 0, reserved_bits := 0, classification_region := 1,
       station_type := 0, latitude := 0, longitude := 0,
       operation_count := some 0, operation_radius := some 0,
       altitude_upper := some 0, altitude_lower := some 0,
       ua_category := 0, ua_level := 0, station_altitude := 0,
       timestamp := some 0, reserved := none } : SystemMessage).altitude_lower.isSome ∧
    ({ coordinate_system := 0, reserved_bits := 0, classification_region := 1,
       station_type := 0, latitude := 0, longitude := 0,
       operation_count := some 0, operation_radius := some 0,
       altitude_upper := some 0, altitude_lower := some 0,
       ua_category := 0, ua_level := 0, station_altitude := 0,
       timestamp := some 0, reserved := none } : SystemMessage).timestamp.isSome ∧
    (({ coordinate_system := 0, reserved_bits := 0, classification_region := 1,
        station_type := 0, latitude := 0, longitude := 0,
        operation_count := some 0, operation_radius := some 0,
        altitude_upper := some 0, altitude_lower := some 0,
        ua_category := 0, ua_level := 0, station_altitude := 0,
        timestamp := some 0, reserved := none } : SystemMessage).reserved.isSome ↔
      25 ≤ (0x04 :: List.replicate 23 0).length) :=
  system_ok_optionals_present (0x04 :: List.replicate 23 0)
    { coordinate_system := 0, reserved_bits := 0, classification_region := 1,
      station_type := 0, latitude := 0, longitude := 0,
      operation_count := some 0, operation_radius := some 0,
      altitude_upper := some 0, altitude_lower := some 0,
      ua_category := 0, ua_level := 0, station_altitude := 0,
      timestamp := some 0, reserved := none } (by decide)

/-- Claim C8 counterexample: a frame whose radiotap declared
header-length byte (200) exceeds the buffer length (10): the reader
panics via Rust's bounds checks — `parse_radiotap` returns no typed
bounds error (its Rust signature has no error path at all). -/
theorem parse_radiotap_oversized_header_cex :
    parse_radiotap [0, 0, 200, 0, 0, 0, 0, 0, 0, 0] = .panic := by decide

/-- Claim C8 (amended): when the declared radiotap header length (byte
2) exceeds the frame buffer's length, the reader panics (the final
`&data[header_len..]` slice, or an index read inside the field walk)
rather than returning a typed bounds error; no bytes outside the buffer
are ever produced — whenever the reader returns at all, the 802.11
slice starts exactly at the declared header length. -/
theorem parse_radiotap_bounds (d : List Nat) :
    (d.length < d.getD 2 0 → parse_radiotap d = .panic) ∧
    (parse_radiotap d = .panic ∨
      ∃ h, parse_radiotap d = .ok (h, d.drop (d.getD 2 0))) := by
  constructor
  · intro hl
    by_cases h3 : 2 < d.length
    · unfold parse_radiotap
      have e2 : idx d 2 = .ok (d.getD 2 0) := by unfold idx; rw [if_pos h3]
      rw [e2]
      simp only [PResult.bind_ok, bind]
      rcases rtLoop_ok_or_panic d (d.getD 2 0) (d.getD 2 0 + 1) 0 0 0 0 with ⟨v, hv⟩ | hv <;>
        rw [hv] <;> simp only [PResult.bind_ok, PResult.bind_panic]
      have hs : subslice d (d.getD 2 0) d.length = .panic := by
        unfold subslice
        rw [if_neg]
        rintro ⟨ha, -⟩
        omega
      rw [hs]
      simp only [PResult.bind_panic]
    · exfalso
      rw [List.getD_eq_default _ _ (by omega : d.length ≤ 2)] at hl
      omega
  · by_cases h3 : 2 < d.length
    · unfold parse_radiotap
      have e2 : idx d 2 = .ok (d.getD 2 0) := by unfold idx; rw [if_pos h3]
      rw [e2]
      simp only [PResult.bind_ok, bind]
      rcases rtLoop_ok_or_panic d (d.getD 2 0) (d.getD 2 0 + 1) 0 0 0 0 with ⟨v, hv⟩ | hv
      · rw [hv]
        simp only [PResult.bind_ok]
        by_cases hb : d.getD 2 0 ≤ d.length
        · have hfull : (d.drop (d.getD 2 0)).take (d.length - d.getD 2 0)
              = d.drop (d.getD 2 0) := by
            have hlen : (d.drop (d.getD 2 0)).length = d.length - d.getD 2 0 :=
              List.length_drop _ _
            rw [← hlen, List.take_length]
          have hs : subslice d (d.getD 2 0) d.length = .ok (d.drop (d.getD 2 0)) := by
            unfold subslice
            rw [if_pos ⟨hb, le_refl d.length⟩, hfull]
          rw [hs]
          simp only [PResult.bind_ok]
          exact Or.inr ⟨_, rfl⟩
        · have hs : subslice d (d.getD 2 0) d.length = .panic := by
            unfold subslice
            rw [if_neg]
            rintro ⟨ha, -⟩
            omega
          rw [hs]
          exact Or.inl rfl
      · rw [hv]
        exact Or.inl rfl
    · unfold parse_radiotap
      have e2 : idx d 2 = .panic := by unfold idx; rw [if_neg h3]
      rw [e2]
      exact Or.inl rfl

/-- Claim C8 witness: a 3-byte frame declaring a 5-byte header panics. -/
theorem parse_radiotap_bounds_witness :
    parse_radiotap [0, 0, 5] = .panic ∧
    (parse_radiotap [0, 0, 5] = .panic ∨
      ∃ h, parse_radiotap [0, 0, 5] = .ok (h, ([0, 0, 5] : List Nat).drop 5)) :=
  ⟨(parse_radiotap_bounds [0, 0, 5]).1 (by decide),
   (parse_radiotap_bounds [0, 0, 5]).2⟩
